import Mathlib

/-!
Verification of the TapTunes hardware-bridge services.

This file gives a shallow embedding, in Lean 4, of the three pieces of logic
in the repository's `python-services` directory:

* the RFID presence tracker (`rfid_service.py`, `main` loop and
  `BackendClient`),
* the debounced GPIO button dispatcher (`gpio_button_service.py`,
  `GPIOButtonService`), and
* the process supervisor (`taptunes_main.py`, `TapTunesService`),

and proves theorems about the embedded definitions.  External collaborators
(the RFID transceiver, the GPIO pin driver, the backend HTTP service, the OS
process table) are modelled as oracles passed in as arguments: each poll cycle
receives the value the collaborator would have produced.
-/

namespace TapTunes

/-! ## RFID presence tracker (`rfid_service.py`) -/

/-- `REMOVAL_THRESHOLD` in `rfid_service.py` `main`: the card must be absent
for 4 consecutive reads to be considered removed. -/
def REMOVAL_THRESHOLD : Nat := 4

/-- Outcome of one HTTP request to the backend, as seen by `BackendClient`:
either a status code or a raised `requests.RequestException`. -/
inductive HttpResult where
  | status (code : Nat)
  | requestError
deriving DecidableEq, Repr

/-- `BackendClient.notify_card_scan`: POSTs to `/api/rfid/card-detected` and
returns `True` on status 200, `False` on 404 (unknown card), any other status,
or a request exception. -/
def notify_card_scan (r : HttpResult) : Bool :=
  match r with
  | .status c => if c = 200 then true else false
  | .requestError => false

/-- The backend calls issued by `BackendClient.stop_playback(card_id)`:
first POST `/api/rfid/save-position` for the card (best effort), then POST
`/api/audio/stop` unconditionally. -/
inductive BackendCall where
  | savePosition (cardId : String)
  | stopAudio
deriving DecidableEq, Repr

/-- `BackendClient.stop_playback`: the save-position request is attempted
first and the stop request is issued regardless of the save outcome (the save
is wrapped in its own try/except). -/
def stop_playback_calls (cardId : String) (_saveResult : HttpResult) :
    List BackendCall :=
  [.savePosition cardId, .stopAudio]

/-- The mutable locals of the `rfid_service.py` `main` loop:
`last_card_id` and `card_absent_count`. -/
structure PresenceState where
  last_card_id : Option String
  card_absent_count : Nat
deriving DecidableEq, Repr

/-- Observable events of one presence-tracker poll cycle: an arrival notify
(`backend_client.notify_card_scan`, with its returned success flag) or a
departure (`backend_client.stop_playback` for the removed card). -/
inductive RfidEvent where
  | notifyScan (cardId : String) (success : Bool)
  | departure (cardId : String)
deriving DecidableEq, Repr

/-- Whether an event is a departure (a `stop_playback` invocation). -/
def RfidEvent.isDeparture : RfidEvent → Bool
  | .departure _ => true
  | _ => false

/-- One iteration of the `while True` loop body of `rfid_service.py` `main`.
`notifyOk card` is the success flag `notify_card_scan` returns for `card`
(an oracle for the backend's response).  If a card is read, the absence
counter resets; a card differing from `last_card_id` additionally triggers
`notify_card_scan` and — regardless of its success — sets `last_card_id`.
If no card is read and a card was current, the absence counter increments
and, on reaching `REMOVAL_THRESHOLD`, `stop_playback` fires and the state
is cleared. -/
def poll_once (notifyOk : String → Bool) (s : PresenceState)
    (card_id : Option String) : PresenceState × List RfidEvent :=
  match card_id with
  | some c =>
      if some c ≠ s.last_card_id then
        (⟨some c, 0⟩, [.notifyScan c (notifyOk c)])
      else
        (⟨s.last_card_id, 0⟩, [])
  | none =>
      match s.last_card_id with
      | some lc =>
          let n := s.card_absent_count + 1
          if REMOVAL_THRESHOLD ≤ n then
            (⟨none, 0⟩, [.departure lc])
          else
            (⟨some lc, n⟩, [])
      | none => (s, [])

/-- Iterating `poll_once` over a list of poll results, collecting events. -/
def runPolls (notifyOk : String → Bool) (s : PresenceState) :
    List (Option String) → PresenceState × List RfidEvent
  | [] => (s, [])
  | c :: cs =>
      let r := poll_once notifyOk s c
      let rest := runPolls notifyOk r.1 cs
      (rest.1, r.2 ++ rest.2)

/-! ## GPIO button dispatcher (`gpio_button_service.py`) -/

/-- `DEBOUNCE_TIME` from `gpio_config.py`: ignore button presses within
200 ms of each other. -/
def DEBOUNCE_TIME : Nat := 200

/-- `VOLUME_STEP` from `gpio_config.py`. -/
def VOLUME_STEP : Int := 5

/-- `VOLUME_MIN` from `gpio_config.py`. -/
def VOLUME_MIN : Int := 0

/-- `VOLUME_MAX` from `gpio_config.py`. -/
def VOLUME_MAX : Int := 100

/-- A GPIO level as read by `GPIO.input`.  The buttons use pull-up
resistors, so `low` is the active (pressed) level and `high` the
inactive one. -/
inductive Level where
  | high
  | low
deriving DecidableEq, Repr

/-- The per-button entries of `GPIOButtonService`'s dictionaries:
`button_states[name]` (initialised to `GPIO.HIGH`) and
`last_press_time[name]` (initialised to `0`).  Times are wall-clock
milliseconds (`time.time() * 1000`), modelled as naturals; truncated
subtraction agrees with the source's arithmetic on every monotone clock
(and when `current < last`, both the negative float difference and the
truncated `0` fail the `≥ DEBOUNCE_TIME` test). -/
structure ChannelState where
  button_state : Level
  last_press_time : Nat
deriving DecidableEq, Repr

/-- `GPIOButtonService.is_debounced`: accepts when at least
`DEBOUNCE_TIME` ms have passed since the last accepted press, and only
then advances `last_press_time` to the current time. -/
def is_debounced (current_time : Nat) (s : ChannelState) :
    Bool × ChannelState :=
  if DEBOUNCE_TIME ≤ current_time - s.last_press_time then
    (true, { s with last_press_time := current_time })
  else
    (false, s)

/-- The per-channel body of `GPIOButtonService.check_buttons`: on a
high→low edge the debounce check decides whether the button's action is
dispatched (`Bool` result); the stored level is always updated to the
current reading. -/
def check_button (current_time : Nat) (current_state : Level)
    (s : ChannelState) : ChannelState × Bool :=
  if current_state = .low ∧ s.button_state = .high then
    let r := is_debounced current_time s
    ({ r.2 with button_state := current_state }, r.1)
  else
    ({ s with button_state := current_state }, false)

/-- Iterating `check_button` over a sampled trace of `(time, level)`
readings for one channel, collecting the times at which an action was
dispatched. -/
def runChecks (s : ChannelState) :
    List (Nat × Level) → ChannelState × List Nat
  | [] => (s, [])
  | (t, lv) :: rest =>
      let r := check_button t lv s
      let more := runChecks r.1 rest
      (more.1, (if r.2 then [t] else []) ++ more.2)

/-- `GPIOButtonService.get_current_volume`: the fetched `volume` field of
`GET /audio/current` when the request succeeds with status 200 and the
field is present, otherwise the locally cached `self.current_volume`. -/
def get_current_volume (fetched : Option Int) (current_volume : Int) : Int :=
  fetched.getD current_volume

/-- `GPIOButtonService.handle_volume_up`: fetch the current volume, add
the configured step, clamp at `VOLUME_MAX` only, and POST the result to
`/audio/volume` iff it differs from the fetched value.  The return value
is the `volume` payload of the POST when one is issued, `none` when no
call is made.  `step` stands for the configured `VOLUME_STEP`. -/
def handle_volume_up (fetched : Option Int) (current_volume step : Int) :
    Option Int :=
  let cur := get_current_volume fetched current_volume
  let new_volume := min (cur + step) VOLUME_MAX
  if new_volume ≠ cur then some new_volume else none

/-- `GPIOButtonService.handle_volume_down`: fetch the current volume,
subtract the configured step, clamp at `VOLUME_MIN` only, and POST the
result to `/audio/volume` iff it differs from the fetched value. -/
def handle_volume_down (fetched : Option Int) (current_volume step : Int) :
    Option Int :=
  let cur := get_current_volume fetched current_volume
  let new_volume := max (cur - step) VOLUME_MIN
  if new_volume ≠ cur then some new_volume else none

/-! ## Process supervisor (`taptunes_main.py`) -/

/-- The three workers of `TapTunesService`. -/
inductive Worker where
  | backend
  | rfid
  | gpio
deriving DecidableEq, Repr

/-- The position of a worker in `stop_all`'s shutdown list
`[('GPIO', …), ('RFID', …), ('Backend', …)]`. -/
def Worker.stopRank : Worker → Nat
  | .gpio => 0
  | .rfid => 1
  | .backend => 2

/-- The environment facts `TapTunesService`'s start routines consult:
whether each launch script exists, whether `subprocess.Popen` succeeds
for it, whether the backend is still alive after its 3-second startup
grace (`poll() is None`), and whether the supervisor runs as root
(`os.geteuid() == 0`). -/
structure SupervisorEnv where
  backendScriptExists : Bool
  backendSpawnOk : Bool
  backendAliveAfterStartup : Bool
  rfidScriptExists : Bool
  rfidSpawnOk : Bool
  gpioScriptExists : Bool
  isRoot : Bool
  gpioSpawnOk : Bool
deriving DecidableEq, Repr

/-- `TapTunesService.start_backend`: fails if the backend script is
missing, if `Popen` raises, or if the process has already exited after
the startup sleep.  The second component records whether a backend
process was actually spawned. -/
def start_backend (env : SupervisorEnv) : Bool × List Worker :=
  if !env.backendScriptExists then (false, [])
  else if !env.backendSpawnOk then (false, [])
  else (env.backendAliveAfterStartup, [.backend])

/-- `TapTunesService.start_rfid`: fails if the script is missing or
`Popen` raises. -/
def start_rfid (env : SupervisorEnv) : Bool × List Worker :=
  if !env.rfidScriptExists then (false, [])
  else if !env.rfidSpawnOk then (false, [])
  else (true, [.rfid])

/-- `TapTunesService.start_gpio`: fails if the script is missing; when
not running as root the launch is skipped (logged, no spawn); otherwise
fails if `Popen` raises. -/
def start_gpio (env : SupervisorEnv) : Bool × List Worker :=
  if !env.gpioScriptExists then (false, [])
  else if env.isRoot then
    if !env.gpioSpawnOk then (false, []) else (true, [.gpio])
  else (false, [])

/-- The startup phase of `TapTunesService.run`: `start_backend` first;
if it fails, `sys.exit(1)` (first component `some 1`) before any
auxiliary start routine runs; otherwise `start_rfid` then `start_gpio`
are attempted best-effort.  The second component is the ordered trace of
successfully spawned workers. -/
def runStartup (env : SupervisorEnv) : Option Nat × List Worker :=
  let b := start_backend env
  if !b.1 then (some 1, b.2)
  else
    let r := start_rfid env
    let g := start_gpio env
    (none, b.2 ++ r.2 ++ g.2)

/-- How a started worker process responds to `stop_all`'s
terminate-then-wait: `stops` (wait(5) returns), `hangs` (wait raises
`TimeoutExpired`), or `raisesOnStop` (wait raises some other exception,
caught by the generic handler). -/
inductive StopOutcome where
  | stops
  | hangs
  | raisesOnStop
deriving DecidableEq, Repr

/-- The observable actions of `TapTunesService.stop_all` on one worker;
`waitFor` carries the timeout in seconds passed to `process.wait`. -/
inductive StopAction where
  | terminate (w : Worker)
  | waitFor (w : Worker) (timeout : Nat)
  | kill (w : Worker)
  | logStopped (w : Worker)
  | logKilled (w : Worker)
  | logStopError (w : Worker)
deriving DecidableEq, Repr

/-- The worker a stop action concerns. -/
def StopAction.worker : StopAction → Worker
  | .terminate w => w
  | .waitFor w _ => w
  | .kill w => w
  | .logStopped w => w
  | .logKilled w => w
  | .logStopError w => w

/-- The per-worker body of `TapTunesService.stop_all`: skipped entirely
when the worker was never started (handle is `None`); otherwise
`process.terminate()`, `process.wait(timeout=5)`, then — depending on
the wait's outcome — a success log, or `process.kill()` with a kill log
on `TimeoutExpired`, or an error log on any other exception. -/
def stopProcess (w : Worker) : Option StopOutcome → List StopAction
  | none => []
  | some .stops => [.terminate w, .waitFor w 5, .logStopped w]
  | some .hangs => [.terminate w, .waitFor w 5, .kill w, .logKilled w]
  | some .raisesOnStop => [.terminate w, .waitFor w 5, .logStopError w]

/-- `TapTunesService.stop_all`: stops the workers in the fixed list
order GPIO, RFID, Backend, each via `stopProcess`. -/
def stop_all (gpio rfid backend : Option StopOutcome) : List StopAction :=
  stopProcess .gpio gpio ++ stopProcess .rfid rfid ++
    stopProcess .backend backend

/-- What one invocation of a worker's start routine does when the
monitor loop calls it: spawn a replacement process (which may itself
exit later) or fail, leaving the stored handle unchanged. -/
inductive LaunchAttempt where
  | spawned (exitedLater : Bool)
  | failedSpawn
deriving DecidableEq, Repr

/-- The per-worker body of one `TapTunesService.monitor_processes`
cycle.  The stored handle is `none` when the worker was never
successfully launched, `some exited` otherwise (`exited` = `poll()`
returned non-`None`).  The start routine is re-invoked (second
component `true`) only when a handle exists and its process has exited;
a failed re-launch leaves the old handle in place. -/
def monitor_check (h : Option Bool) (res : LaunchAttempt) :
    Option Bool × Bool :=
  match h with
  | none => (none, false)
  | some exited =>
      if exited then
        match res with
        | .spawned ex => (some ex, true)
        | .failedSpawn => (some exited, true)
      else
        (some exited, false)

/-- Iterating `monitor_check` over successive monitor cycles for one
worker, counting how many times its start routine was invoked. -/
def monitor_run (h : Option Bool) : List LaunchAttempt → Option Bool × Nat
  | [] => (h, 0)
  | res :: rest =>
      let r := monitor_check h res
      let more := monitor_run r.1 rest
      (more.1, (if r.2 then 1 else 0) + more.2)

/-- The exceptions relevant to the supervisor's control flow.  In
Python, `KeyboardInterrupt` and `SystemExit` derive `BaseException` but
not `Exception`, so an `except Exception` clause catches neither. -/
inductive Exc where
  | keyboardInterrupt
  | systemExit (code : Nat)
  | otherError
deriving DecidableEq, Repr

/-- Which exceptions an `except Exception` clause catches. -/
def isException : Exc → Bool
  | .otherError => true
  | _ => false

/-- Which exceptions an `except KeyboardInterrupt` clause catches. -/
def isKeyboardInterrupt : Exc → Bool
  | .keyboardInterrupt => true
  | _ => false

/-- Observable events of the supervisor's shutdown path. -/
inductive SupEvent where
  | stopAllRun
  | exitProcess (code : Nat)
deriving DecidableEq, BEq, Repr

/-- The result of running a piece of Python code: the events it emitted
and the exception escaping it, if any. -/
def PyResult : Type := List SupEvent × Option Exc

/-- Sequencing: the second piece runs only if the first completes
without an escaping exception. -/
def pySeq (a b : PyResult) : PyResult :=
  match a.2 with
  | none => (a.1 ++ b.1, b.2)
  | some e => (a.1, some e)

/-- `try body … except E: handler`: the handler runs only when the
body's escaping exception matches the clause. -/
def pyTryCatch (body : PyResult) (clause : Exc → Bool)
    (handler : PyResult) : PyResult :=
  match body.2 with
  | some e => if clause e then (body.1 ++ handler.1, handler.2) else body
  | none => body

/-- `try body … finally fin`: the finally block always runs; the body's
escaping exception (if any) then continues to propagate. -/
def pyTryFinally (body fin : PyResult) : PyResult :=
  match fin.2 with
  | none => (body.1 ++ fin.1, body.2)
  | some e => (body.1 ++ fin.1, some e)

/-- One complete execution of `TapTunesService.stop_all` (it raises
nothing: every per-process exception is caught inside). -/
def stop_all_run : PyResult := ([.stopAllRun], none)

/-- `signal_handler` in `taptunes_main.py`: runs `service.stop_all()`
then `sys.exit(0)`, which raises `SystemExit(0)` at the main thread's
current execution point. -/
def signal_handler_run : PyResult :=
  pySeq stop_all_run ([], some (.systemExit 0))

/-- `TapTunesService.monitor_processes` when a termination signal
(SIGINT/SIGTERM) is delivered during the loop: the handler executes at
the delivery point inside the loop body's `try`, and the loop's
`except Exception` clause does not catch the escaping `SystemExit`. -/
def monitor_processes_on_signal : PyResult :=
  pyTryCatch signal_handler_run isException ([], none)

/-- `TapTunesService.run`'s monitoring phase on the signal path:
`try: monitor_processes() except KeyboardInterrupt: … finally:
self.stop_all()`.  `SystemExit` matches neither clause, so the finally
block runs `stop_all` a second time and the exception propagates. -/
def run_on_signal : PyResult :=
  pyTryFinally
    (pyTryCatch monitor_processes_on_signal isKeyboardInterrupt ([], none))
    stop_all_run

/-- `main` in `taptunes_main.py` on the signal path: `service.run()` is
wrapped in `except Exception` (which `SystemExit` escapes), so the
interpreter exits with the `SystemExit` code. -/
def main_on_signal : List SupEvent :=
  let r := pyTryCatch run_on_signal isException ([], some (.systemExit 1))
  match r.2 with
  | some (.systemExit c) => r.1 ++ [.exitProcess c]
  | _ => r.1

/-- The invariant the presence tracker's poll cycle maintains: an empty
current-card slot comes with a zero absence counter, and the absence
counter stays below the removal threshold. -/
def PresenceInv (s : PresenceState) : Prop :=
  (s.last_card_id = none → s.card_absent_count = 0) ∧
  s.card_absent_count < REMOVAL_THRESHOLD

/-- How `stop_all` must have treated one worker slot: an unstarted
worker gets no actions at all; a started one gets a terminate, a
bounded wait of 5 seconds, a kill exactly when the wait timed out, and
an outcome log in every case. -/
@[reducible]
def stoppedCorrectly (w : Worker) (slot : Option StopOutcome)
    (trace : List StopAction) : Prop :=
  match slot with
  | none => ∀ a ∈ trace, a.worker ≠ w
  | some o =>
      StopAction.terminate w ∈ trace ∧
      StopAction.waitFor w 5 ∈ trace ∧
      (o = .hangs ↔ StopAction.kill w ∈ trace) ∧
      (StopAction.logStopped w ∈ trace ∨ StopAction.logKilled w ∈ trace ∨
        StopAction.logStopError w ∈ trace)

/-! ## Helper lemmas -/

theorem runPolls_append (notifyOk : String → Bool) (s : PresenceState)
    (l₁ l₂ : List (Option String)) :
    runPolls notifyOk s (l₁ ++ l₂) =
      ((runPolls notifyOk (runPolls notifyOk s l₁).1 l₂).1,
       (runPolls notifyOk s l₁).2 ++
         (runPolls notifyOk (runPolls notifyOk s l₁).1 l₂).2) := by
  induction l₁ generalizing s with
  | nil => simp [runPolls]
  | cons c cs ih =>
      simp only [List.cons_append, runPolls, List.append_eq]
      rw [ih]
      simp [List.append_assoc]

/-- A run of `n` empty polls with a current card, starting below the removal
threshold and staying below it, just counts up and emits nothing. -/
theorem runPolls_misses (notifyOk : String → Bool) (t : String)
    (n k : Nat) (h : k + n < REMOVAL_THRESHOLD) :
    runPolls notifyOk ⟨some t, k⟩ (List.replicate n none) =
      (⟨some t, k + n⟩, []) := by
  induction n generalizing k with
  | zero => simp [runPolls]
  | succ m ih =>
      have hk : ¬ REMOVAL_THRESHOLD ≤ k + 1 := by omega
      have hrec := ih (k := k + 1) (by omega)
      simp only [List.replicate_succ, runPolls, poll_once, hk, if_false, hrec,
        List.append_nil]
      have hkm : k + 1 + m = k + (m + 1) := by omega
      rw [hkm]

/-- Reading the same card repeatedly keeps it current, resets the absence
count, and emits no events. -/
theorem runPolls_sameReads (notifyOk : String → Bool) (t : String)
    (m k : Nat) :
    (runPolls notifyOk ⟨some t, k⟩ (List.replicate m (some t))).1.last_card_id
        = some t ∧
    (runPolls notifyOk ⟨some t, k⟩ (List.replicate m (some t))).2 = [] := by
  induction m generalizing k with
  | zero => simp [runPolls]
  | succ m ih =>
      have hstep : poll_once notifyOk ⟨some t, k⟩ (some t) =
          (⟨some t, 0⟩, []) := by
        simp [poll_once]
      simp only [List.replicate_succ, runPolls, hstep]
      exact ⟨(ih (k := 0)).1, by simp [(ih (k := 0)).2]⟩

/-- `poll_once` preserves the presence-tracker invariant. -/
theorem poll_once_inv (notifyOk : String → Bool) (s : PresenceState)
    (c : Option String) (h : PresenceInv s) :
    PresenceInv (poll_once notifyOk s c).1 := by
  rcases c with _ | cid
  · rcases hs : s.last_card_id with _ | lc
    · simpa only [poll_once, hs] using h
    · simp only [poll_once, hs]
      split
      · exact ⟨fun _ => rfl, by simp [REMOVAL_THRESHOLD]⟩
      · rename_i hth
        refine ⟨fun hc => by simp at hc, ?_⟩
        simp only [REMOVAL_THRESHOLD] at hth ⊢
        omega
  · simp only [poll_once]
    split
    · exact ⟨fun _ => rfl, by simp [REMOVAL_THRESHOLD]⟩
    · exact ⟨fun _ => rfl, by simp [REMOVAL_THRESHOLD]⟩

/-- `runPolls` preserves the presence-tracker invariant. -/
theorem runPolls_inv (notifyOk : String → Bool) (s : PresenceState)
    (trace : List (Option String)) (h : PresenceInv s) :
    PresenceInv (runPolls notifyOk s trace).1 := by
  induction trace generalizing s with
  | nil => exact h
  | cons c cs ih => exact ih _ (poll_once_inv notifyOk s c h)

/-! ## Claim theorems -/

/-- C1, counterexample: the claim quantifies over every starting volume
value fetched from the backend, but `handle_volume_up` clamps only at
the top.  With a fetched volume of `-10` and the configured step of 5,
the step-adjusted value `-5` differs from `-10`, so a set-volume call
IS issued, and its payload `-5` lies outside `[0, 100]`. -/
theorem c1_counterexample :
    handle_volume_up (some (-10)) 75 VOLUME_STEP = some (-5) ∧
    ¬ (0 ≤ (-5 : Int) ∧ (-5 : Int) ≤ 100) := by
  constructor
  · decide
  · decide

/-- C1, amended: provided the fetched current volume (or the local
fallback used when the fetch fails) lies in `[0, 100]` and the step is
non-negative, the step-adjusted result of both volume handlers lies in
`[0, 100]` — so any set-volume payload they issue lies in `[0, 100]` —
and a set-volume call is issued only when that value differs from the
fetched current volume. -/
theorem c1_volume_clamped (fetched : Option Int) (current_volume step : Int)
    (hlo : 0 ≤ get_current_volume fetched current_volume)
    (hhi : get_current_volume fetched current_volume ≤ 100)
    (hstep : 0 ≤ step) :
    (∀ v, handle_volume_up fetched current_volume step = some v →
        0 ≤ v ∧ v ≤ 100 ∧ v ≠ get_current_volume fetched current_volume) ∧
    (∀ v, handle_volume_down fetched current_volume step = some v →
        0 ≤ v ∧ v ≤ 100 ∧ v ≠ get_current_volume fetched current_volume) := by
  constructor <;> intro v hv <;>
    simp only [handle_volume_up, handle_volume_down, VOLUME_MAX, VOLUME_MIN]
      at hv <;>
    split at hv <;> simp_all <;> omega

/-- C1, witness for the amended theorem at fetched volume 98. -/
theorem c1_witness :
    (0 : Int) ≤ 100 ∧ (100 : Int) ≤ 100 ∧
      (100 : Int) ≠ get_current_volume (some 98) 75 :=
  (c1_volume_clamped (some 98) 75 VOLUME_STEP (by decide) (by decide)
    (by decide)).1 100 (by decide)

/-- C2: on one channel, a high→low (inactive→active) edge strictly more
than `DEBOUNCE_TIME` ms after the last accepted press dispatches exactly
one action and advances the last-accepted timestamp to now; a high→low
edge strictly inside the window updates the stored level but dispatches
nothing and leaves the timestamp; a high reading (including every
active→inactive release) updates the stored level and never dispatches.
Scenario (wall clock started at `T ≥ DEBOUNCE_TIME`, matching the fresh
dictionaries that initialise `last_press_time` to 0): pressed at `T+0`,
released at `T+50`, pressed at `T+100`, released at `T+150`, pressed at
`T+250` — exactly two actions, at `T+0` and `T+250`. -/
theorem c2_debounced_dispatch :
    (∀ (now : Nat) (s : ChannelState), s.button_state = .high →
        s.last_press_time + DEBOUNCE_TIME < now →
        check_button now .low s = (⟨.low, now⟩, true)) ∧
    (∀ (now : Nat) (s : ChannelState), s.button_state = .high →
        now - s.last_press_time < DEBOUNCE_TIME →
        check_button now .low s = (⟨.low, s.last_press_time⟩, false)) ∧
    (∀ (now : Nat) (s : ChannelState),
        check_button now .high s = ({ s with button_state := .high }, false)) ∧
    (∀ T, DEBOUNCE_TIME ≤ T →
        runChecks ⟨.high, 0⟩
          [(T, .low), (T + 50, .high), (T + 100, .low), (T + 150, .high),
            (T + 250, .low)] = (⟨.low, T + 250⟩, [T, T + 250])) := by
  refine ⟨?_, ?_, ?_, ?_⟩
  · intro now s hs hlt
    have : DEBOUNCE_TIME ≤ now - s.last_press_time := by omega
    simp [check_button, is_debounced, hs, this]
  · intro now s hs hlt
    have : ¬ DEBOUNCE_TIME ≤ now - s.last_press_time := by omega
    simp [check_button, is_debounced, hs, this]
  · intro now s
    simp [check_button]
  · intro T hT
    have hT' : 200 ≤ T := hT
    simp [runChecks, check_button, is_debounced, DEBOUNCE_TIME, hT',
      Nat.add_sub_cancel_left]

/-- C2, witness at concrete times (wall-clock base 1000 ms). -/
theorem c2_witness :
    check_button 1000 .low ⟨.high, 0⟩ = (⟨.low, 1000⟩, true) ∧
    check_button 100 .low ⟨.high, 0⟩ = (⟨.low, 0⟩, false) ∧
    check_button 7 .high ⟨.low, 3⟩ = (⟨.high, 3⟩, false) ∧
    runChecks ⟨.high, 0⟩
      [(1000, .low), (1050, .high), (1100, .low), (1150, .high),
        (1250, .low)] = (⟨.low, 1250⟩, [1000, 1250]) :=
  ⟨c2_debounced_dispatch.1 1000 ⟨.high, 0⟩ rfl (by decide),
   c2_debounced_dispatch.2.1 100 ⟨.high, 0⟩ rfl (by decide),
   c2_debounced_dispatch.2.2.1 7 ⟨.low, 3⟩,
   c2_debounced_dispatch.2.2.2 1000 (by decide)⟩

/-- C3: from a freshly-present card (absence count 0), exactly
`REMOVAL_THRESHOLD` = 4 consecutive empty polls fire exactly one
departure (the `stop_playback` invocation for that card), clear the
current card and reset the count; any run of fewer than 4 empty polls
followed by reads of the same card fires no event at all. -/
theorem c3_departure_after_threshold (notifyOk : String → Bool)
    (t : String) :
    runPolls notifyOk ⟨some t, 0⟩ (List.replicate REMOVAL_THRESHOLD none) =
      (⟨none, 0⟩, [.departure t]) ∧
    (∀ n m, n < REMOVAL_THRESHOLD →
      (runPolls notifyOk ⟨some t, 0⟩
        (List.replicate n none ++ List.replicate m (some t))).2 = []) := by
  constructor
  · simp [REMOVAL_THRESHOLD, runPolls, poll_once]
  · intro n m hn
    have h₁ := runPolls_misses notifyOk t n 0 (by omega)
    simp only [Nat.zero_add] at h₁
    have h₂ := runPolls_sameReads notifyOk t m n
    rw [runPolls_append, h₁]
    simp [h₂.2]

/-- C3, witness: one miss then two same-card reads fire nothing; four
misses fire the departure. -/
theorem c3_witness :
    (runPolls (fun _ => true) ⟨some "X1", 0⟩
      (List.replicate 1 none ++ List.replicate 2 (some "X1"))).2 = [] ∧
    runPolls (fun _ => true) ⟨some "X1", 0⟩
        (List.replicate REMOVAL_THRESHOLD none) =
      (⟨none, 0⟩, [.departure "X1"]) :=
  ⟨(c3_departure_after_threshold (fun _ => true) "X1").2 1 2 (by decide),
   (c3_departure_after_threshold (fun _ => true) "X1").1⟩

/-- C4, counterexample: in pending removal (current card "X", absence
count 2), a poll that reads the SAME card "X" resets the count and
keeps the card current but emits no event at all — in particular
`notify_card_scan` is NOT invoked, because the loop only notifies when
`card_id != last_card_id`, and `last_card_id` still holds "X" until the
removal threshold is reached. -/
theorem c4_counterexample :
    (poll_once (fun _ => true) ⟨some "X", 2⟩ (some "X")).1 =
      ⟨some "X", 0⟩ ∧
    (poll_once (fun _ => true) ⟨some "X", 2⟩ (some "X")).2 = [] := by
  constructor
  · decide
  · decide

/-- C4, amended: in pending removal, a poll that reads any card returns
the tracker to a present state with absence count 0 and fires no
departure for the prior card; the arrival notify fires exactly when the
read card differs from the current one — a same-card read resumes
silently. -/
theorem c4_pending_removal_arrival (notifyOk : String → Bool)
    (p c : String) (k : Nat) (_hk : 0 < k) :
    (poll_once notifyOk ⟨some p, k⟩ (some c)).1 = ⟨some c, 0⟩ ∧
    (∀ e ∈ (poll_once notifyOk ⟨some p, k⟩ (some c)).2,
        e.isDeparture = false) ∧
    (c ≠ p → (poll_once notifyOk ⟨some p, k⟩ (some c)).2 =
        [.notifyScan c (notifyOk c)]) ∧
    (c = p → (poll_once notifyOk ⟨some p, k⟩ (some c)).2 = []) := by
  by_cases hcp : c = p
  · subst hcp
    simp [poll_once, RfidEvent.isDeparture]
  · have hne : some c ≠ some p := by simpa using hcp
    simp [poll_once, hne, hcp, RfidEvent.isDeparture]

/-- C4, witness: a different card "Y" arriving at count 2 resets the
state and fires the notify (here with a failing backend oracle). -/
theorem c4_witness :
    (poll_once (fun _ => false) ⟨some "X", 2⟩ (some "Y")).1 =
      ⟨some "Y", 0⟩ ∧
    (poll_once (fun _ => false) ⟨some "X", 2⟩ (some "Y")).2 =
      [.notifyScan "Y" false] :=
  ⟨(c4_pending_removal_arrival (fun _ => false) "X" "Y" 2 (by decide)).1,
   (c4_pending_removal_arrival (fun _ => false) "X" "Y" 2
      (by decide)).2.2.1 (by decide)⟩

/-- C5, counterexample: a 404 from the card-detected endpoint makes
`notify_card_scan` return failure, yet the loop's unconditional
`last_card_id = card_id` still records the unrecognized card as
current — the claim's "no local state change" is false. -/
theorem c5_counterexample :
    notify_card_scan (.status 404) = false ∧
    (poll_once (fun _ => notify_card_scan (.status 404)) ⟨none, 0⟩
        (some "UNKNOWN")).1.last_card_id = some "UNKNOWN" := by
  constructor
  · decide
  · decide

/-- C5, amended: when the backend answers 404 for a newly read card,
the failure is reported (the notify event carries `false`), but the
tracker still sets its current-card slot to the unrecognized card's ID
and resets the absence count to 0. -/
theorem c5_unknown_card_recorded (s : PresenceState) (c : String)
    (h : some c ≠ s.last_card_id) :
    poll_once (fun _ => notify_card_scan (.status 404)) s (some c) =
      (⟨some c, 0⟩, [.notifyScan c false]) := by
  simp [poll_once, h, notify_card_scan]

/-- C5, witness at the empty initial state. -/
theorem c5_witness :
    poll_once (fun _ => notify_card_scan (.status 404)) ⟨none, 0⟩
        (some "BAD") =
      (⟨some "BAD", 0⟩, [.notifyScan "BAD" false]) :=
  c5_unknown_card_recorded ⟨none, 0⟩ "BAD" (by decide)

/-- C6: the startup phase spawns the backend first (any non-empty spawn
trace starts with it), and when `start_backend` fails the supervisor
exits fatally with code 1 having spawned neither auxiliary worker. -/
theorem c6_backend_first_fatal (env : SupervisorEnv) :
    ((runStartup env).2 ≠ [] →
      (runStartup env).2.head? = some Worker.backend) ∧
    ((start_backend env).1 = false →
      (runStartup env).1 = some 1 ∧
      Worker.rfid ∉ (runStartup env).2 ∧
      Worker.gpio ∉ (runStartup env).2) := by
  obtain ⟨bs, bo, ba, rs, ro, gs, rt, go⟩ := env
  cases bs <;> cases bo <;> cases ba <;> cases rs <;> cases ro <;>
    cases gs <;> cases rt <;> cases go <;> decide

/-- C6, witness: with the backend script missing, startup exits with
code 1 and spawns nothing; with everything available, the first spawned
worker is the backend. -/
theorem c6_witness :
    ((runStartup ⟨false, true, true, true, true, true, true, true⟩).1 =
        some 1 ∧
      Worker.rfid ∉
        (runStartup ⟨false, true, true, true, true, true, true, true⟩).2 ∧
      Worker.gpio ∉
        (runStartup ⟨false, true, true, true, true, true, true, true⟩).2) ∧
    (runStartup ⟨true, true, true, true, true, true, true, true⟩).2.head? =
      some Worker.backend :=
  ⟨(c6_backend_first_fatal ⟨false, true, true, true, true, true, true,
      true⟩).2 (by decide),
   (c6_backend_first_fatal ⟨true, true, true, true, true, true, true,
      true⟩).1 (by decide)⟩

/-- C7: `stop_all` processes the workers in the order GPIO, RFID,
Backend (auxiliary workers before the primary backend: the trace is
sorted by stop rank), and each started worker gets a terminate, a wait
bounded by 5 seconds, a kill exactly when the wait timed out, and an
outcome log in every case; never-started workers get no actions. -/
theorem c7_stop_all_order (g r b : Option StopOutcome) :
    List.Pairwise
      (fun a₁ a₂ => a₁.worker.stopRank ≤ a₂.worker.stopRank)
      (stop_all g r b) ∧
    stoppedCorrectly .gpio g (stop_all g r b) ∧
    stoppedCorrectly .rfid r (stop_all g r b) ∧
    stoppedCorrectly .backend b (stop_all g r b) := by
  have hcase : ∀ o : Option StopOutcome,
      o = none ∨ o = some .stops ∨ o = some .hangs ∨
        o = some .raisesOnStop := by
    intro o
    rcases o with _ | o
    · exact Or.inl rfl
    · cases o
      · exact Or.inr (Or.inl rfl)
      · exact Or.inr (Or.inr (Or.inl rfl))
      · exact Or.inr (Or.inr (Or.inr rfl))
  rcases hcase g with rfl | rfl | rfl | rfl <;>
    rcases hcase r with rfl | rfl | rfl | rfl <;>
      rcases hcase b with rfl | rfl | rfl | rfl <;> decide

/-- C7, witness: GPIO never started, RFID stops gracefully, the backend
hangs and is killed. -/
theorem c7_witness :
    List.Pairwise
      (fun a₁ a₂ => a₁.worker.stopRank ≤ a₂.worker.stopRank)
      (stop_all none (some .stops) (some .hangs)) ∧
    stoppedCorrectly .gpio none (stop_all none (some .stops) (some .hangs)) ∧
    stoppedCorrectly .rfid (some .stops)
      (stop_all none (some .stops) (some .hangs)) ∧
    stoppedCorrectly .backend (some .hangs)
      (stop_all none (some .stops) (some .hangs)) :=
  c7_stop_all_order none (some .stops) (some .hangs)

/-- C8, counterexample: on a termination signal delivered during
monitoring, `stop_all` runs TWICE before the process exits — once in
`signal_handler` and once more in `run`'s `finally` block as the
handler's `SystemExit` unwinds — so "exactly once" is false. -/
theorem c8_counterexample :
    main_on_signal.count SupEvent.stopAllRun = 2 ∧
    main_on_signal.count SupEvent.stopAllRun ≠ 1 := by
  constructor
  · decide
  · decide

/-- C8, amended: on a termination signal delivered during monitoring,
the shutdown routine is executed before process exit, but twice rather
than exactly once — first by the signal handler, then again by `run`'s
`finally` block — after which the process exits with code 0. -/
theorem c8_stop_all_twice :
    main_on_signal = [.stopAllRun, .stopAllRun, .exitProcess 0] := by
  decide

/-- C9: from the initial state (no current card, absence count 0),
after any sequence of poll cycles the tracker satisfies: an empty
current-card slot implies a zero absence count, and the absence count
is strictly below the removal threshold of 4. -/
theorem c9_tracker_invariant (notifyOk : String → Bool)
    (trace : List (Option String)) :
    ((runPolls notifyOk ⟨none, 0⟩ trace).1.last_card_id = none →
      (runPolls notifyOk ⟨none, 0⟩ trace).1.card_absent_count = 0) ∧
    (runPolls notifyOk ⟨none, 0⟩ trace).1.card_absent_count <
      REMOVAL_THRESHOLD :=
  runPolls_inv notifyOk ⟨none, 0⟩ trace
    ⟨fun _ => rfl, by simp [REMOVAL_THRESHOLD]⟩

/-- C9, witness on a concrete trace: present, three misses, still held
with count 3 < 4. -/
theorem c9_witness :
    ((runPolls (fun _ => true) ⟨none, 0⟩ []).1.card_absent_count = 0) ∧
    (runPolls (fun _ => true) ⟨none, 0⟩
        [some "X", none, none, none]).1.card_absent_count <
      REMOVAL_THRESHOLD :=
  ⟨(c9_tracker_invariant (fun _ => true) []).1 rfl,
   (c9_tracker_invariant (fun _ => true) [some "X", none, none, none]).2⟩

/-- C10: one monitor cycle re-invokes a worker's start routine only
when the worker's handle exists and its process has exited; a worker
whose handle is unset (initial launch failed or was skipped) keeps an
unset handle and is never launched by the monitor, over any number of
cycles. -/
theorem c10_monitor_restart_guard :
    (∀ (h : Option Bool) (res : LaunchAttempt),
        (monitor_check h res).2 = true → h = some true) ∧
    (∀ outcomes : List LaunchAttempt,
        monitor_run none outcomes = (none, 0)) := by
  constructor
  · intro h res hfired
    match h with
    | none => simp [monitor_check] at hfired
    | some exited =>
        cases exited with
        | false => simp [monitor_check] at hfired
        | true => rfl
  · intro outcomes
    induction outcomes with
    | nil => rfl
    | cons o rest ih => simp [monitor_run, monitor_check, ih]

/-- C10, witness: an exited handle may be restarted; an unset handle
stays unset through two cycles with zero launches. -/
theorem c10_witness :
    (some true : Option Bool) = some true ∧
    monitor_run none [.failedSpawn, .spawned false] = (none, 0) :=
  ⟨c10_monitor_restart_guard.1 (some true) .failedSpawn (by decide),
   c10_monitor_restart_guard.2 [.failedSpawn, .spawned false]⟩

end TapTunes
